import Mathlib

/-!
Shallow embedding of the Chrome DevTools reverse proxy (`reverse-proxy.go`).

Go strings are modelled as `List Char` (all strings handled by the proxy are
ASCII, so byte-level and character-level operations coincide).  The helper
functions `containsSub`, `replaceFirst` and `splitOnChar` embed
`strings.Contains`, `strings.Replace(s, old, new, 1)` and
`strings.Split(s, sep)` for a one-character separator.
-/

namespace ChromeProxy

/-- Embeds Go `strings.Contains (haystack, needle)`: is `sub` a contiguous
substring of `s`?  The empty needle is contained in every string, as in Go. -/
def containsSub (s sub : List Char) : Bool :=
  match s with
  | [] => sub.isEmpty
  | c :: cs => sub.isPrefixOf (c :: cs) || containsSub cs sub

/-- Embeds Go `strings.Replace(s, old, new, 1)`: replace the first (leftmost)
occurrence of `old` in `s` by `new`; if `old` does not occur, return `s`
unchanged.  As in Go, an empty `old` matches at position 0. -/
def replaceFirst (s old new : List Char) : List Char :=
  if old.isPrefixOf s then new ++ s.drop old.length
  else
    match s with
    | [] => []
    | c :: cs => c :: replaceFirst cs old new

/-- Embeds Go `strings.Split(s, sep)` for a single-character separator. -/
def splitOnChar (sep : Char) : List Char → List (List Char)
  | [] => [[]]
  | c :: cs =>
    if c = sep then [] :: splitOnChar sep cs
    else
      match splitOnChar sep cs with
      | [] => [[c]]
      | x :: xs => (c :: x) :: xs

/-- Index of the first occurrence of `sub` in `s`, if any (a specification
device used to state first-occurrence properties of `replaceFirst`). -/
def firstOccurrenceIdx (s sub : List Char) : Option Nat :=
  match s with
  | [] => if sub.isEmpty then some 0 else none
  | c :: cs =>
    if sub.isPrefixOf (c :: cs) then some 0
    else (firstOccurrenceIdx cs sub).map (· + 1)

/-- The ordered pattern table of `rewriteWebSocketURL`: the Go source builds
`patterns := []string{"ws://" + targetHostPort, "ws://127.0.0.1:" + port,
"ws://localhost:" + port}` where `port` is `strings.Split(targetHostPort, ":")[1]`.
`List.getD 1 []` models the index; the Go program only ever passes a
`targetHostPort` of the form `localhost:<port>`, which does contain a colon. -/
def wsPatterns (targetHostPort : List Char) : List (List Char) :=
  ["ws://".data ++ targetHostPort,
   "ws://127.0.0.1:".data ++ (splitOnChar ':' targetHostPort).getD 1 [],
   "ws://localhost:".data ++ (splitOnChar ':' targetHostPort).getD 1 []]

/-- The `for _, pattern := range patterns` loop body of `rewriteWebSocketURL`:
on the first pattern contained in `url`, replace its first occurrence by
`repl`; if no pattern is contained, return `url` unchanged (the Go code logs
a warning in that case). -/
def tryPatterns (url repl : List Char) : List (List Char) → List Char
  | [] => url
  | p :: ps => if containsSub url p then replaceFirst url p repl else tryPatterns url repl ps

/-- Embeds Go `rewriteWebSocketURL(originalURL, targetHostPort, publicHostPort)`. -/
def rewriteWebSocketURL (originalURL targetHostPort publicHostPort : List Char) : List Char :=
  tryPatterns originalURL ("wss://".data ++ publicHostPort) (wsPatterns targetHostPort)

/-- Embeds the `devtoolsFrontendUrl` rewrite inside `handleJsonList`:
`strings.Replace(devURLStr, "ws=" + targetHostPort, "ws=" + publicHostPort, 1)`. -/
def rewriteDevtoolsFrontendUrl (url targetHostPort publicHostPort : List Char) : List Char :=
  replaceFirst url ("ws=".data ++ targetHostPort) ("ws=".data ++ publicHostPort)

/-- The target host:port built by `NewChromeDevToolsClient`:
`net.JoinHostPort("localhost", strconv.Itoa(port))`, i.e. `localhost:<port>`. -/
def joinLocalhost (portStr : List Char) : List Char :=
  "localhost:".data ++ portStr

end ChromeProxy

namespace ChromeProxy

/-- A JSON value as the handlers see it after `json.Unmarshal` into
`map[string]interface{}`: the handlers only ever distinguish string values
from everything else, so non-string values are kept opaque (tagged by a
natural number so distinct opaque values stay distinct). -/
inductive JValue where
  | str : List Char → JValue
  | other : Nat → JValue
deriving DecidableEq

/-- A decoded JSON object (`map[string]interface{}`): an association list of
keys to values; Go maps have no duplicate keys. -/
abbrev Doc := List (List Char × JValue)

/-- Map lookup `doc[k]` (first binding wins, as keys are unique). -/
def getKey : Doc → List Char → Option JValue
  | [], _ => none
  | (k, v) :: rest, key => if k = key then some v else getKey rest key

/-- Map assignment `doc[k] = v` for a key already present: replaces the value
at `key`, leaving every other binding untouched.  (The Go handlers only assign
to keys they have just read, so the insert-if-absent case never arises.) -/
def setKey : Doc → List Char → JValue → Doc
  | [], _, _ => []
  | (k, v) :: rest, key, nv =>
    if k = key then (k, nv) :: setKey rest key nv else (k, v) :: setKey rest key nv

/-- The `"webSocketDebuggerUrl"` key. -/
def wsKey : List Char := "webSocketDebuggerUrl".data

/-- The `"devtoolsFrontendUrl"` key. -/
def devKey : List Char := "devtoolsFrontendUrl".data

/-- The field rewrite performed by `handleJsonVersion` on the decoded version
document: if `webSocketDebuggerUrl` exists and is a string, replace it via
`rewriteWebSocketURL`; otherwise leave the document unchanged. -/
def rewriteVersionDoc (doc : Doc) (targetHostPort publicHostPort : List Char) : Doc :=
  match getKey doc wsKey with
  | some (.str s) => setKey doc wsKey (.str (rewriteWebSocketURL s targetHostPort publicHostPort))
  | _ => doc

/-- The per-entry rewrite of `handleJsonList`: first `devtoolsFrontendUrl`
(plain first-occurrence substring replace of `ws=<target>` by `ws=<public>`),
then `webSocketDebuggerUrl` (via `rewriteWebSocketURL`), each only when the
field exists and is a string. -/
def rewriteTarget (t : Doc) (targetHostPort publicHostPort : List Char) : Doc :=
  let t1 :=
    match getKey t devKey with
    | some (.str s) =>
      setKey t devKey (.str (rewriteDevtoolsFrontendUrl s targetHostPort publicHostPort))
    | _ => t
  match getKey t1 wsKey with
  | some (.str s) => setKey t1 wsKey (.str (rewriteWebSocketURL s targetHostPort publicHostPort))
  | _ => t1

/-- The `for i, target := range targetsData` loop of `handleJsonList`. -/
def rewriteTargetList (l : List Doc) (targetHostPort publicHostPort : List Char) : List Doc :=
  l.map (fun t => rewriteTarget t targetHostPort publicHostPort)

/-- Outcome of a discovery fetch against the upstream target, covering the
three error exits of the handlers: `transportError` is a failed
`c.client.Get` (Go `err != nil`), `readError` a failed `io.ReadAll`, and
`decodeError` a failed `json.Unmarshal`; each carries the Go error text. -/
inductive Fetch (α : Type) where
  | transportError : List Char → Fetch α
  | readError : List Char → Fetch α
  | decodeError : List Char → Fetch α
  | ok : α → Fetch α
deriving DecidableEq

/-- Outcome of a request forwarded through `httputil.ReverseProxy`. -/
inductive ForwardOutcome where
  | ok : Nat → ForwardOutcome
  | transportError : ForwardOutcome
deriving DecidableEq

/-- Response bodies the proxy can produce.  `errText` is a plain-text
`http.Error` body; the `json*` constructors are the JSON documents the
handlers encode (time-valued fields — uptime and timestamp — are omitted from
the model); `forwarded` is an upstream response streamed through the reverse
proxy unchanged. -/
inductive Body where
  | errText : List Char → Body
  | jsonVersion : Doc → Body
  | jsonList : List Doc → Body
  | jsonHealthy : List Char → Body
  | jsonUnhealthy : List Char → Body
  | jsonMetrics : Nat → Nat → List Char → Body
  | forwarded : Body
deriving DecidableEq

/-- Is the body a rewritten discovery document? -/
def Body.isDocument : Body → Bool
  | .jsonVersion _ => true
  | .jsonList _ => true
  | _ => false

/-- An HTTP response: status code plus body. -/
structure Response where
  status : Nat
  body : Body
deriving DecidableEq

/-- The shared counters of `ChromeDevToolsClient` (`startTime` omitted:
uptime is not modelled).  The Go fields are plain `int64`; counters only ever
increase, so `Nat` is used. -/
structure Metrics where
  requestCount : Nat
  errorCount : Nat
deriving DecidableEq

/-- `c.errorCount++`. -/
def bumpError (m : Metrics) : Metrics :=
  ⟨m.requestCount, m.errorCount + 1⟩

/-- Embeds `handleJsonVersion`, with the upstream interaction summarised by a
`Fetch Doc` (Go stdlib HTTP transport and JSON parser are outside this
repository).  `publicHostPort` is `r.Host`; `targetHostPort` is
`c.targetHostPort`.  Status 200 comes from `w.Write` after the headers. -/
def handleJsonVersion (f : Fetch Doc) (publicHostPort targetHostPort : List Char)
    (m : Metrics) : Response × Metrics :=
  match f with
  | .transportError e =>
    (⟨502, .errText ("Failed to get JSON version: ".data ++ e)⟩, bumpError m)
  | .readError e =>
    (⟨500, .errText ("Failed to read response body: ".data ++ e)⟩, bumpError m)
  | .decodeError e =>
    (⟨500, .errText ("Failed to unmarshal response body: ".data ++ e)⟩, bumpError m)
  | .ok doc =>
    (⟨200, .jsonVersion (rewriteVersionDoc doc targetHostPort publicHostPort)⟩, m)

/-- Embeds `handleJsonList`, with the upstream interaction summarised by a
`Fetch (List Doc)`. -/
def handleJsonList (f : Fetch (List Doc)) (publicHostPort targetHostPort : List Char)
    (m : Metrics) : Response × Metrics :=
  match f with
  | .transportError e =>
    (⟨502, .errText ("Failed to get JSON list: ".data ++ e)⟩, bumpError m)
  | .readError e =>
    (⟨500, .errText ("Failed to read response body: ".data ++ e)⟩, bumpError m)
  | .decodeError e =>
    (⟨500, .errText ("Failed to unmarshal response body: ".data ++ e)⟩, bumpError m)
  | .ok l =>
    (⟨200, .jsonList (rewriteTargetList l targetHostPort publicHostPort)⟩, m)

/-- One incoming HTTP request as the router inspects it: method, URL path,
`Host` header, and the `Upgrade` / `Connection` headers
(`r.Header.Get` returns the first value, a single string). -/
structure Request where
  method : List Char
  path : List Char
  host : List Char
  upgradeHeader : List Char
  connectionHeader : List Char
deriving DecidableEq

/-- Embeds `isWebSocketUpgrade`: `strings.ToLower(Upgrade) == "websocket"`
and `strings.Contains(strings.ToLower(Connection), "upgrade")`.
(`Char.toLower` lowercases ASCII letters; the headers involved are ASCII.) -/
def isWebSocketUpgrade (r : Request) : Bool :=
  (r.upgradeHeader.map Char.toLower == "websocket".data) &&
    containsSub (r.connectionHeader.map Char.toLower) "upgrade".data

/-- The six arms of the `switch` in `ServeHTTP`.  `wsForward` and `forward`
both hand the request to `c.proxy.ServeHTTP`; they differ only in logging. -/
inductive Handler where
  | health
  | metrics
  | version
  | list
  | wsForward
  | forward
deriving DecidableEq

/-- Embeds the dispatch `switch` of `ServeHTTP`, first match winning. -/
def route (r : Request) : Handler :=
  if r.method = "GET".data ∧ r.path = "/health".data then .health
  else if r.method = "GET".data ∧ r.path = "/metrics".data then .metrics
  else if r.method = "GET".data ∧
      (r.path = "/json/version".data ∨ r.path = "/json/version/".data) then .version
  else if r.method = "GET".data ∧
      (r.path = "/json".data ∨ r.path = "/json/".data ∨ r.path = "/json/list".data) then .list
  else if isWebSocketUpgrade r then .wsForward
  else .forward

/-- Does the selected arm hand the request to the transparent forwarder
(`c.proxy.ServeHTTP`)? -/
def Handler.isForwarder : Handler → Bool
  | .wsForward => true
  | .forward => true
  | _ => false

/-- Summary of the upstream target's behaviour for one request: the outcomes
of the discovery fetches, of the health-check `GET /json/version`, and of a
forwarded round trip. -/
structure Upstream where
  versionFetch : Fetch Doc
  listFetch : Fetch (List Doc)
  healthErr : Option (List Char)
  forwardResult : ForwardOutcome
deriving DecidableEq

/-- Embeds `handleHealth`: probe `GET http://<target>/json/version`; failure
gives 503 `{status: "unhealthy", error}`, success 200
`{status: "healthy", uptime, target, timestamp}` (the healthy body carries
`c.targetHostPort` in its `target` field).  Neither counter is touched. -/
def handleHealth (targetHostPort : List Char) (up : Upstream) (m : Metrics) :
    Response × Metrics :=
  match up.healthErr with
  | some e => (⟨503, .jsonUnhealthy e⟩, m)
  | none => (⟨200, .jsonHealthy targetHostPort⟩, m)

/-- Embeds `handleMetrics`: always 200, reporting the current counters and
`c.targetHostPort` as `target_host`. -/
def handleMetrics (targetHostPort : List Char) (m : Metrics) : Response × Metrics :=
  (⟨200, .jsonMetrics m.requestCount m.errorCount targetHostPort⟩, m)

/-- Response written by `httputil.ReverseProxy` (Go stdlib): on success the
upstream response is streamed through unchanged; on a transport error the
stdlib default error handler writes status 502.  The repository never touches
the counters on this path. -/
def forwardResponse : ForwardOutcome → Response
  | .ok st => ⟨st, .forwarded⟩
  | .transportError => ⟨502, .errText "proxy error".data⟩

/-- Embeds `ServeHTTP` as a state-passing function over the metrics: first
`c.requestCount++`, then dispatch on the `switch`.  Only the discovery
handlers ever touch `errorCount`. -/
def serveHTTP (targetHostPort : List Char) (r : Request) (up : Upstream)
    (m0 : Metrics) : Response × Metrics :=
  let m : Metrics := ⟨m0.requestCount + 1, m0.errorCount⟩
  match route r with
  | .health => handleHealth targetHostPort up m
  | .metrics => handleMetrics targetHostPort m
  | .version => handleJsonVersion up.versionFetch r.host targetHostPort m
  | .list => handleJsonList up.listFetch r.host targetHostPort m
  | .wsForward => (forwardResponse up.forwardResult, m)
  | .forward => (forwardResponse up.forwardResult, m)

/-- Shared-memory state for two handler goroutines racing on
`c.requestCount++`: the shared counter plus each goroutine's private
register. -/
structure RaceState where
  counter : Nat
  regA : Nat
  regB : Nat
deriving DecidableEq

/-- The individual memory accesses of `c.requestCount++` executed by two
goroutines A and B: Go compiles the unsynchronized increment into a plain
load of the shared field followed by a plain store of `register + 1`. -/
inductive RaceOp where
  | readA
  | writeA
  | readB
  | writeB
deriving DecidableEq

/-- One memory access against the shared counter. -/
def raceStep (s : RaceState) : RaceOp → RaceState
  | .readA => ⟨s.counter, s.counter, s.regB⟩
  | .writeA => ⟨s.regA + 1, s.regA, s.regB⟩
  | .readB => ⟨s.counter, s.regA, s.counter⟩
  | .writeB => ⟨s.regB + 1, s.regA, s.regB⟩

/-- Run a schedule (an interleaving of the two goroutines' accesses). -/
def raceRun (ops : List RaceOp) (s : RaceState) : RaceState :=
  ops.foldl raceStep s

/-- A schedule is an interleaving of goroutine A's program `[readA, writeA]`
and goroutine B's program `[readB, writeB]` when each goroutine's own program
order is preserved: A's accesses in order, B's accesses in order, merged. -/
def isIncrementInterleaving (ops : List RaceOp) : Bool :=
  (ops.filter (fun o => o = .readA || o = .writeA) == [.readA, .writeA]) &&
    (ops.filter (fun o => o = .readB || o = .writeB) == [.readB, .writeB])

/-! ### Helper lemmas on the string primitives -/

theorem prefixOf_append (a b : List Char) : a.isPrefixOf (a ++ b) = true := by
  induction a with
  | nil => simp [List.isPrefixOf]
  | cons c cs ih => simp [List.isPrefixOf, ih]

theorem containsSub_of_prefixOf {s sub : List Char} (h : sub.isPrefixOf s = true) :
    containsSub s sub = true := by
  cases s with
  | nil =>
    cases sub with
    | nil => rfl
    | cons c cs => simp [List.isPrefixOf] at h
  | cons c cs => simp [containsSub, h]

theorem replaceFirst_of_prefixOf {s old : List Char} (new : List Char)
    (h : old.isPrefixOf s = true) :
    replaceFirst s old new = new ++ s.drop old.length := by
  unfold replaceFirst
  simp [h]

theorem replaceFirst_append_self (x y new : List Char) :
    replaceFirst (x ++ y) x new = new ++ y := by
  rw [replaceFirst_of_prefixOf new (prefixOf_append x y), List.drop_left]

theorem splitOnChar_ne_nil (sep : Char) (l : List Char) : splitOnChar sep l ≠ [] := by
  cases l with
  | nil => simp [splitOnChar]
  | cons c cs =>
    unfold splitOnChar
    split
    · simp
    · split
      · simp
      · simp

theorem splitOnChar_of_not_mem {sep : Char} {l : List Char} (h : sep ∉ l) :
    splitOnChar sep l = [l] := by
  induction l with
  | nil => rfl
  | cons c cs ih =>
    have hc : ¬ c = sep := fun hcs => h (hcs ▸ List.mem_cons_self c cs)
    have hcs : sep ∉ cs := fun hm => h (List.mem_cons_of_mem c hm)
    unfold splitOnChar
    rw [if_neg hc, ih hcs]

theorem splitOnChar_append_sep {sep : Char} {a : List Char} (b : List Char) (ha : sep ∉ a) :
    splitOnChar sep (a ++ sep :: b) = a :: splitOnChar sep b := by
  induction a with
  | nil => simp [splitOnChar]
  | cons c cs ih =>
    have hc : ¬ c = sep := fun hcs => ha (hcs ▸ List.mem_cons_self c cs)
    have hcs : sep ∉ cs := fun hm => ha (List.mem_cons_of_mem c hm)
    show splitOnChar sep (c :: (cs ++ sep :: b)) = (c :: cs) :: splitOnChar sep b
    conv_lhs => unfold splitOnChar
    rw [if_neg hc, ih hcs]

theorem wsPatterns_joinLocalhost {portStr : List Char} (hp : ':' ∉ portStr) :
    wsPatterns (joinLocalhost portStr) =
      ["ws://localhost:".data ++ portStr,
       "ws://127.0.0.1:".data ++ portStr,
       "ws://localhost:".data ++ portStr] := by
  have hsplit : splitOnChar ':' (joinLocalhost portStr) = ["localhost".data, portStr] := by
    have heq : joinLocalhost portStr = "localhost".data ++ ':' :: portStr := by rfl
    rw [heq, splitOnChar_append_sep portStr (by decide), splitOnChar_of_not_mem hp]
  unfold wsPatterns
  rw [hsplit]
  have hws : "ws://".data ++ joinLocalhost portStr = "ws://localhost:".data ++ portStr := by
    show "ws://".data ++ ("localhost:".data ++ portStr) = "ws://localhost:".data ++ portStr
    rw [← List.append_assoc]
    rfl
  rw [hws]
  rfl

theorem firstOccurrenceIdx_isSome_eq (s sub : List Char) :
    containsSub s sub = (firstOccurrenceIdx s sub).isSome := by
  induction s with
  | nil =>
    unfold containsSub firstOccurrenceIdx
    by_cases h : sub.isEmpty <;> simp [h]
  | cons c cs ih =>
    unfold containsSub firstOccurrenceIdx
    by_cases h : sub.isPrefixOf (c :: cs) <;> simp [h, ih]

theorem replaceFirst_eq_of_firstIdx {s old : List Char} (new : List Char) {i : Nat}
    (h : firstOccurrenceIdx s old = some i) :
    replaceFirst s old new = s.take i ++ new ++ s.drop (i + old.length) := by
  induction s generalizing i with
  | nil =>
    unfold firstOccurrenceIdx at h
    by_cases he : old.isEmpty
    · have ho : old = [] := by cases old with | nil => rfl | cons a as => simp at he
      have hi : i = 0 := by simp [he] at h; omega
      subst hi; subst ho
      rfl
    · simp [he] at h
  | cons c cs ih =>
    unfold firstOccurrenceIdx at h
    by_cases hp : old.isPrefixOf (c :: cs)
    · simp [hp] at h
      subst h
      rw [replaceFirst_of_prefixOf new hp]
      simp
    · simp [hp] at h
      obtain ⟨j, hj, hi⟩ := h
      subst hi
      have hrec := ih hj
      unfold replaceFirst
      rw [if_neg (by simpa using hp)]
      simp only [List.take_succ_cons, List.drop_succ_cons]
      rw [hrec]
      simp [Nat.add_right_comm]

theorem tryPatterns_of_no_match {url : List Char} (repl : List Char) {ps : List (List Char)}
    (h : ∀ q ∈ ps, containsSub url q = false) : tryPatterns url repl ps = url := by
  induction ps with
  | nil => rfl
  | cons p rest ih =>
    unfold tryPatterns
    rw [h p (List.mem_cons_self p rest)]
    exact ih fun q hq => h q (List.mem_cons_of_mem p hq)

theorem rewrite_localhost_append {portStr : List Char} (pub suf : List Char)
    (hp : ':' ∉ portStr) :
    rewriteWebSocketURL ("ws://localhost:".data ++ portStr ++ suf) (joinLocalhost portStr) pub
      = "wss://".data ++ pub ++ suf := by
  unfold rewriteWebSocketURL
  rw [wsPatterns_joinLocalhost hp]
  unfold tryPatterns
  rw [containsSub_of_prefixOf (prefixOf_append ("ws://localhost:".data ++ portStr) suf)]
  simp only [if_true]
  rw [replaceFirst_append_self, List.append_assoc]

theorem rewrite_loopback_append {portStr : List Char} (pub suf : List Char)
    (hp : ':' ∉ portStr)
    (hnl : containsSub ("ws://127.0.0.1:".data ++ portStr ++ suf)
      ("ws://localhost:".data ++ portStr) = false) :
    rewriteWebSocketURL ("ws://127.0.0.1:".data ++ portStr ++ suf) (joinLocalhost portStr) pub
      = "wss://".data ++ pub ++ suf := by
  unfold rewriteWebSocketURL
  rw [wsPatterns_joinLocalhost hp]
  unfold tryPatterns
  rw [hnl]
  simp only [Bool.false_eq_true, if_false]
  unfold tryPatterns
  rw [containsSub_of_prefixOf (prefixOf_append ("ws://127.0.0.1:".data ++ portStr) suf)]
  simp only [if_true]
  rw [replaceFirst_append_self, List.append_assoc]

/-! ### Helper lemmas on the document model -/

theorem getKey_setKey_ne {doc : Doc} {key k : List Char} (nv : JValue) (h : k ≠ key) :
    getKey (setKey doc key nv) k = getKey doc k := by
  induction doc with
  | nil => rfl
  | cons kv rest ih =>
    obtain ⟨k0, v0⟩ := kv
    unfold setKey
    by_cases hk : k0 = key
    · rw [if_pos hk]
      have h1 : ¬ k0 = k := fun hh => h (hh.symm.trans hk)
      unfold getKey
      rw [if_neg h1, if_neg h1, ih]
    · rw [if_neg hk]
      unfold getKey
      by_cases hk2 : k0 = k
      · rw [if_pos hk2, if_pos hk2]
      · rw [if_neg hk2, if_neg hk2, ih]

theorem keys_setKey (doc : Doc) (key : List Char) (nv : JValue) :
    (setKey doc key nv).map Prod.fst = doc.map Prod.fst := by
  induction doc with
  | nil => rfl
  | cons kv rest ih =>
    obtain ⟨k0, v0⟩ := kv
    unfold setKey
    by_cases hk : k0 = key <;> simp [hk, ih]

theorem getKey_rewriteVersionDoc_ne {doc : Doc} {tgt pub k : List Char} (h : k ≠ wsKey) :
    getKey (rewriteVersionDoc doc tgt pub) k = getKey doc k := by
  unfold rewriteVersionDoc
  cases hv : getKey doc wsKey with
  | none => rfl
  | some v =>
    cases v with
    | str s => exact getKey_setKey_ne _ h
    | other n => rfl

theorem keys_rewriteVersionDoc (doc : Doc) (tgt pub : List Char) :
    (rewriteVersionDoc doc tgt pub).map Prod.fst = doc.map Prod.fst := by
  unfold rewriteVersionDoc
  cases hv : getKey doc wsKey with
  | none => rfl
  | some v =>
    cases v with
    | str s => exact keys_setKey _ _ _
    | other n => rfl

theorem getKey_rewriteTarget_ne {d : Doc} {tgt pub k : List Char}
    (hws : k ≠ wsKey) (hdev : k ≠ devKey) :
    getKey (rewriteTarget d tgt pub) k = getKey d k := by
  unfold rewriteTarget
  cases hd : getKey d devKey with
  | none =>
    simp only
    cases hv : getKey d wsKey with
    | none => rfl
    | some v => cases v with
      | str s => exact getKey_setKey_ne _ hws
      | other n => rfl
  | some v =>
    cases v with
    | str s =>
      simp only
      cases hv : getKey (setKey d devKey _) wsKey with
      | none => exact getKey_setKey_ne _ hdev
      | some w => cases w with
        | str u => rw [getKey_setKey_ne _ hws, getKey_setKey_ne _ hdev]
        | other n => exact getKey_setKey_ne _ hdev
    | other n =>
      simp only
      cases hv : getKey d wsKey with
      | none => rfl
      | some w => cases w with
        | str u => exact getKey_setKey_ne _ hws
        | other n2 => rfl

/-! ### Helper lemmas on the handlers -/

theorem handleJsonVersion_requestCount (f : Fetch Doc) (pub tgt : List Char) (m : Metrics) :
    (handleJsonVersion f pub tgt m).2.requestCount = m.requestCount := by
  cases f <;> rfl

theorem handleJsonList_requestCount (f : Fetch (List Doc)) (pub tgt : List Char) (m : Metrics) :
    (handleJsonList f pub tgt m).2.requestCount = m.requestCount := by
  cases f <;> rfl

theorem handleHealth_requestCount (tgt : List Char) (up : Upstream) (m : Metrics) :
    (handleHealth tgt up m).2.requestCount = m.requestCount := by
  unfold handleHealth
  cases up.healthErr <;> rfl

theorem rewriteVersionDoc_single (u : List Char) (tgt pub : List Char) :
    rewriteVersionDoc [(wsKey, .str u)] tgt pub
      = [(wsKey, .str (rewriteWebSocketURL u tgt pub))] := by
  unfold rewriteVersionDoc
  simp [getKey, setKey]

/-! ### Claim theorems -/

/-- C2 (counterexample): the claim promises that a URL beginning with the
recognized prefix `ws://127.0.0.1:<port>` is rewritten to
`wss://<externalHostPort>` followed by the suffix after that prefix.  The code
matches patterns by substring containment, not by prefix: here the
earlier-ordered pattern `ws://localhost:9222` occurs later in the URL and its
occurrence is the one replaced, so the leading recognized prefix survives. -/
theorem rewriteWebSocketURL_not_prefix_based_cex :
    rewriteWebSocketURL
        ("ws://127.0.0.1:9222".data ++ "/a?u=ws://localhost:9222/b".data)
        "localhost:9222".data "ext.example".data
      = "ws://127.0.0.1:9222/a?u=wss://ext.example/b".data
    ∧ rewriteWebSocketURL
        ("ws://127.0.0.1:9222".data ++ "/a?u=ws://localhost:9222/b".data)
        "localhost:9222".data "ext.example".data
      ≠ "wss://".data ++ "ext.example".data ++ "/a?u=ws://localhost:9222/b".data := by
  constructor
  · decide
  · decide

/-- C2 (amended): `rewriteWebSocketURL` tries each recognized pattern in order
testing substring containment, and replaces that pattern's first occurrence
with `wss://<externalHostPort>`.  Hence a URL beginning with
`ws://localhost:<port>` (the first pattern, built from the target host:port)
is always rewritten to `wss://<external>` plus the byte-for-byte suffix, and a
URL beginning with `ws://127.0.0.1:<port>` is rewritten the same way provided
the earlier-ordered `ws://localhost:<port>` pattern occurs nowhere in it. -/
theorem rewriteWebSocketURL_recognized_forms (portStr pub suf : List Char)
    (hp : ':' ∉ portStr) :
    rewriteWebSocketURL ("ws://localhost:".data ++ portStr ++ suf) (joinLocalhost portStr) pub
      = "wss://".data ++ pub ++ suf
    ∧ (containsSub ("ws://127.0.0.1:".data ++ portStr ++ suf)
        ("ws://localhost:".data ++ portStr) = false →
      rewriteWebSocketURL ("ws://127.0.0.1:".data ++ portStr ++ suf) (joinLocalhost portStr) pub
        = "wss://".data ++ pub ++ suf) :=
  ⟨rewrite_localhost_append pub suf hp, fun hnl => rewrite_loopback_append pub suf hp hnl⟩

/-- C2 (witness): the amended statement evaluated on the spec's own example,
`ws://127.0.0.1:9222/devtools/browser/abc123` with external host
`9223-host.example`. -/
theorem rewriteWebSocketURL_recognized_forms_witness :
    (':' ∉ "9222".data)
    ∧ containsSub ("ws://127.0.0.1:".data ++ "9222".data ++ "/devtools/browser/abc123".data)
        ("ws://localhost:".data ++ "9222".data) = false
    ∧ rewriteWebSocketURL
        ("ws://127.0.0.1:".data ++ "9222".data ++ "/devtools/browser/abc123".data)
        (joinLocalhost "9222".data) "9223-host.example".data
      = "wss://".data ++ "9223-host.example".data ++ "/devtools/browser/abc123".data :=
  ⟨by decide, by decide,
    (rewriteWebSocketURL_recognized_forms "9222".data "9223-host.example".data
      "/devtools/browser/abc123".data (by decide)).2 (by decide)⟩

/-- C3 (counterexample): the claim that a second application of
`rewriteWebSocketURL` to its own `wss://<external>` output is a no-op fails
when the original URL contained the internal pattern twice: the first rewrite
leaves the second occurrence in place, and a second application rewrites it,
changing the string again. -/
theorem rewriteWebSocketURL_not_idempotent_cex :
    ("wss://ext.example".data).isPrefixOf
        (rewriteWebSocketURL "ws://localhost:9222/a?u=ws://localhost:9222/b".data
          "localhost:9222".data "ext.example".data) = true
    ∧ rewriteWebSocketURL
        (rewriteWebSocketURL "ws://localhost:9222/a?u=ws://localhost:9222/b".data
          "localhost:9222".data "ext.example".data)
        "localhost:9222".data "ext.example".data
      ≠ rewriteWebSocketURL "ws://localhost:9222/a?u=ws://localhost:9222/b".data
          "localhost:9222".data "ext.example".data := by
  constructor
  · decide
  · decide

/-- C3 (amended): if none of the three recognized patterns occurs anywhere in
the URL (the code tests containment, not prefix matching), the function
returns its input unchanged; consequently a second application is a no-op
whenever the first output no longer contains any recognized pattern — which
holds for typical single-occurrence URLs but not in general. -/
theorem rewriteWebSocketURL_unmatched_and_idempotent (tgt pub : List Char) :
    (∀ url, (∀ q ∈ wsPatterns tgt, containsSub url q = false) →
      rewriteWebSocketURL url tgt pub = url)
    ∧ (∀ url, (∀ q ∈ wsPatterns tgt,
        containsSub (rewriteWebSocketURL url tgt pub) q = false) →
      rewriteWebSocketURL (rewriteWebSocketURL url tgt pub) tgt pub
        = rewriteWebSocketURL url tgt pub) :=
  ⟨fun _ h => tryPatterns_of_no_match _ h, fun _ h => tryPatterns_of_no_match _ h⟩

/-- C3 (witness): an unrecognized URL passes through unchanged, and the
rewritten form of a recognized single-occurrence URL is a fixed point. -/
theorem rewriteWebSocketURL_unmatched_and_idempotent_witness :
    rewriteWebSocketURL "http://example.net/page".data "localhost:9222".data "ext.example".data
      = "http://example.net/page".data
    ∧ rewriteWebSocketURL
        (rewriteWebSocketURL "ws://localhost:9222/devtools/page/X".data
          "localhost:9222".data "ext.example".data)
        "localhost:9222".data "ext.example".data
      = rewriteWebSocketURL "ws://localhost:9222/devtools/page/X".data
          "localhost:9222".data "ext.example".data :=
  ⟨(rewriteWebSocketURL_unmatched_and_idempotent "localhost:9222".data "ext.example".data).1
      "http://example.net/page".data (by decide),
    (rewriteWebSocketURL_unmatched_and_idempotent "localhost:9222".data "ext.example".data).2
      "ws://localhost:9222/devtools/page/X".data (by decide)⟩

/-- C9: both URL rewrites replace exactly the first occurrence of the matched
pattern.  If the first pattern `ws://<targetHostPort>` first occurs at index
`i` of the URL, `rewriteWebSocketURL` yields the URL with precisely that
occurrence replaced by `wss://<publicHostPort>`, the prefix before `i` and the
entire remainder after the occurrence (including any later occurrences of the
internal address) preserved byte-for-byte; the `devtoolsFrontendUrl` rewrite
behaves the same way for `ws=<targetHostPort>`. -/
theorem rewrites_first_occurrence_only (url tgt pub : List Char) (i j : Nat) :
    (firstOccurrenceIdx url ("ws://".data ++ tgt) = some i →
      rewriteWebSocketURL url tgt pub
        = url.take i ++ ("wss://".data ++ pub)
            ++ url.drop (i + ("ws://".data ++ tgt).length))
    ∧ (firstOccurrenceIdx url ("ws=".data ++ tgt) = some j →
      rewriteDevtoolsFrontendUrl url tgt pub
        = url.take j ++ ("ws=".data ++ pub)
            ++ url.drop (j + ("ws=".data ++ tgt).length)) := by
  constructor
  · intro h
    have hc : containsSub url ("ws://".data ++ tgt) = true := by
      rw [firstOccurrenceIdx_isSome_eq, h]
      rfl
    unfold rewriteWebSocketURL wsPatterns tryPatterns
    rw [hc]
    simp only [if_true]
    exact replaceFirst_eq_of_firstIdx _ h
  · intro h
    unfold rewriteDevtoolsFrontendUrl
    exact replaceFirst_eq_of_firstIdx _ h

/-- C9 (witness): a URL containing the internal address twice keeps the
second occurrence after each rewrite. -/
theorem rewrites_first_occurrence_only_witness :
    firstOccurrenceIdx "ws://localhost:9222/a?u=ws://localhost:9222/b".data
        ("ws://".data ++ "localhost:9222".data) = some 0
    ∧ rewriteWebSocketURL "ws://localhost:9222/a?u=ws://localhost:9222/b".data
        "localhost:9222".data "ext.example".data
      = ("ws://localhost:9222/a?u=ws://localhost:9222/b".data).take 0
          ++ ("wss://".data ++ "ext.example".data)
          ++ ("ws://localhost:9222/a?u=ws://localhost:9222/b".data).drop
              (0 + ("ws://".data ++ "localhost:9222".data).length)
    ∧ firstOccurrenceIdx "https://front/inspector.html?ws=localhost:9222/devtools/page/7&ws=localhost:9222/x".data
        ("ws=".data ++ "localhost:9222".data) = some 29
    ∧ rewriteDevtoolsFrontendUrl
        "https://front/inspector.html?ws=localhost:9222/devtools/page/7&ws=localhost:9222/x".data
        "localhost:9222".data "ext.example".data
      = ("https://front/inspector.html?ws=localhost:9222/devtools/page/7&ws=localhost:9222/x".data).take 29
          ++ ("ws=".data ++ "ext.example".data)
          ++ ("https://front/inspector.html?ws=localhost:9222/devtools/page/7&ws=localhost:9222/x".data).drop
              (29 + ("ws=".data ++ "localhost:9222".data).length) :=
  ⟨by decide,
    (rewrites_first_occurrence_only "ws://localhost:9222/a?u=ws://localhost:9222/b".data
      "localhost:9222".data "ext.example".data 0 0).1 (by decide),
    by decide,
    (rewrites_first_occurrence_only
      "https://front/inspector.html?ws=localhost:9222/devtools/page/7&ws=localhost:9222/x".data
      "localhost:9222".data "ext.example".data 0 29).2 (by decide)⟩

/-- C8: the claim that N concurrent requests always increase the request
counter by exactly N does not hold of the source: `c.requestCount++` is an
unsynchronized read-modify-write on a plain `int64` field, so the classic
lost-update interleaving of two concurrent handlers (both load the counter,
then both store `loaded + 1`) increases the counter by 1 instead of 2, while
the sequential schedule of the same two increments yields 2. -/
theorem requestCount_race_lost_update :
    isIncrementInterleaving [.readA, .readB, .writeA, .writeB] = true
    ∧ (raceRun [.readA, .readB, .writeA, .writeB] ⟨0, 0, 0⟩).counter = 1
    ∧ isIncrementInterleaving [.readA, .writeA, .readB, .writeB] = true
    ∧ (raceRun [.readA, .writeA, .readB, .writeB] ⟨0, 0, 0⟩).counter = 2
    ∧ (1 : Nat) ≠ 2 := by
  refine ⟨by decide, by decide, by decide, by decide, by decide⟩

/-- C1 (counterexample): a response delivered by the version handler can
still contain the internal target address.  When the upstream
`webSocketDebuggerUrl` contains the internal spelling twice, only the first
occurrence is replaced, and the delivered document retains `localhost:9222`. -/
theorem internal_address_in_version_response :
    (handleJsonVersion
        (.ok [(wsKey, .str "ws://localhost:9222/a?u=ws://localhost:9222/b".data)])
        "ext.example".data "localhost:9222".data ⟨0, 0⟩).1
      = ⟨200, .jsonVersion
          [(wsKey, .str "wss://ext.example/a?u=ws://localhost:9222/b".data)]⟩
    ∧ containsSub "wss://ext.example/a?u=ws://localhost:9222/b".data
        "localhost:9222".data = true := by
  constructor
  · decide
  · decide

/-- C1 (amended): the proxy replaces the first occurrence of the first
matched internal pattern in `webSocketDebuggerUrl` (so a URL that is a
recognized prefix plus a suffix becomes `wss://<external>` plus that suffix
verbatim, any internal spelling inside the suffix included); the internal
target address is not globally erased from responses — the metrics response
reports it by design in its `target_host` field, and the health response in
its `target` field. -/
theorem internal_address_first_occurrence_only (portStr pub suf : List Char)
    (m : Metrics) (hp : ':' ∉ portStr) :
    (handleJsonVersion
        (.ok [(wsKey, .str ("ws://localhost:".data ++ portStr ++ suf))])
        pub (joinLocalhost portStr) m).1.body
      = .jsonVersion [(wsKey, .str ("wss://".data ++ pub ++ suf))]
    ∧ (handleMetrics (joinLocalhost portStr) m).1.body
      = .jsonMetrics m.requestCount m.errorCount (joinLocalhost portStr) := by
  constructor
  · show Body.jsonVersion (rewriteVersionDoc
        [(wsKey, .str ("ws://localhost:".data ++ portStr ++ suf))]
        (joinLocalhost portStr) pub) = _
    rw [rewriteVersionDoc_single, rewrite_localhost_append pub suf hp]
  · rfl

/-- C1 (witness): the amended statement on the spec's worked example. -/
theorem internal_address_first_occurrence_only_witness :
    (':' ∉ "9222".data)
    ∧ (handleJsonVersion
        (.ok [(wsKey, .str ("ws://localhost:".data ++ "9222".data
            ++ "/devtools/browser/cd1460bb".data))])
        "9223-host.example".data (joinLocalhost "9222".data) ⟨3, 1⟩).1.body
      = .jsonVersion [(wsKey, .str ("wss://".data ++ "9223-host.example".data
          ++ "/devtools/browser/cd1460bb".data))]
    ∧ (handleMetrics (joinLocalhost "9222".data) ⟨3, 1⟩).1.body
      = .jsonMetrics 3 1 (joinLocalhost "9222".data) :=
  ⟨by decide,
    (internal_address_first_occurrence_only "9222".data "9223-host.example".data
      "/devtools/browser/cd1460bb".data ⟨3, 1⟩ (by decide)).1,
    (internal_address_first_occurrence_only "9222".data "9223-host.example".data
      "/devtools/browser/cd1460bb".data ⟨3, 1⟩ (by decide)).2⟩

/-- C4: the version handler returns the upstream document with every field
other than `webSocketDebuggerUrl` unchanged (unknown fields included, and the
key set preserved); the list handler maps each entry in place, preserving
entry count, order (entry `i` of the output is the rewrite of entry `i` of
the input) and every field other than `webSocketDebuggerUrl` and
`devtoolsFrontendUrl`, for lists of any length including zero. -/
theorem discovery_handlers_frame (pub tgt : List Char) (m : Metrics) (doc : Doc)
    (l : List Doc) (k : List Char) (i : Nat) :
    ((handleJsonVersion (.ok doc) pub tgt m).1.body
      = .jsonVersion (rewriteVersionDoc doc tgt pub))
    ∧ (k ≠ wsKey → getKey (rewriteVersionDoc doc tgt pub) k = getKey doc k)
    ∧ ((rewriteVersionDoc doc tgt pub).map Prod.fst = doc.map Prod.fst)
    ∧ ((handleJsonList (.ok l) pub tgt m).1.body
      = .jsonList (rewriteTargetList l tgt pub))
    ∧ ((rewriteTargetList l tgt pub).length = l.length)
    ∧ ((rewriteTargetList l tgt pub)[i]?
      = (l[i]?).map (fun d => rewriteTarget d tgt pub))
    ∧ (∀ d : Doc, k ≠ wsKey → k ≠ devKey →
      getKey (rewriteTarget d tgt pub) k = getKey d k) :=
  ⟨rfl,
    fun h => getKey_rewriteVersionDoc_ne h,
    keys_rewriteVersionDoc doc tgt pub,
    rfl,
    List.length_map l _,
    List.getElem?_map _ l i,
    fun _ h1 h2 => getKey_rewriteTarget_ne h1 h2⟩

/-- C4 (witness): a version document with an unknown `Browser` field keeps it
unchanged, and a one-entry list keeps its `id` field and its length. -/
theorem discovery_handlers_frame_witness :
    ("Browser".data ≠ wsKey)
    ∧ getKey (rewriteVersionDoc
        [("Browser".data, .str "Chrome/138.0.7204.168".data),
         (wsKey, .str "ws://localhost:9222/devtools/browser/x".data)]
        "localhost:9222".data "ext.example".data) "Browser".data
      = getKey
        [("Browser".data, .str "Chrome/138.0.7204.168".data),
         (wsKey, .str "ws://localhost:9222/devtools/browser/x".data)] "Browser".data
    ∧ (rewriteTargetList [[("id".data, .str "27E1".data)]]
        "localhost:9222".data "ext.example".data).length
      = ([[("id".data, .str "27E1".data)]] : List Doc).length
    ∧ (∀ d : Doc, "id".data ≠ wsKey → "id".data ≠ devKey →
      getKey (rewriteTarget d "localhost:9222".data "ext.example".data) "id".data
        = getKey d "id".data) :=
  ⟨by decide,
    (discovery_handlers_frame "ext.example".data "localhost:9222".data ⟨0, 0⟩
      [("Browser".data, .str "Chrome/138.0.7204.168".data),
       (wsKey, .str "ws://localhost:9222/devtools/browser/x".data)]
      [] "Browser".data 0).2.1 (by decide),
    (discovery_handlers_frame "ext.example".data "localhost:9222".data ⟨0, 0⟩
      [] [[("id".data, .str "27E1".data)]] "Browser".data 0).2.2.2.2.1,
    (discovery_handlers_frame "ext.example".data "localhost:9222".data ⟨0, 0⟩
      [] [] "id".data 0).2.2.2.2.2.2⟩

/-- C5: for both discovery handlers, a transport-level upstream failure
yields HTTP 502 and increments the error counter, and a JSON decode failure
yields HTTP 500 and increments the error counter; in all four failure cases
the response body is the plain-text error message, never a rewritten
document. -/
theorem discovery_handlers_error_paths (e pub tgt : List Char) (m : Metrics) :
    ((handleJsonVersion (.transportError e) pub tgt m).1.status = 502
      ∧ (handleJsonVersion (.transportError e) pub tgt m).2.errorCount = m.errorCount + 1
      ∧ (handleJsonVersion (.transportError e) pub tgt m).1.body.isDocument = false)
    ∧ ((handleJsonVersion (.decodeError e) pub tgt m).1.status = 500
      ∧ (handleJsonVersion (.decodeError e) pub tgt m).2.errorCount = m.errorCount + 1
      ∧ (handleJsonVersion (.decodeError e) pub tgt m).1.body.isDocument = false)
    ∧ ((handleJsonList (.transportError e) pub tgt m).1.status = 502
      ∧ (handleJsonList (.transportError e) pub tgt m).2.errorCount = m.errorCount + 1
      ∧ (handleJsonList (.transportError e) pub tgt m).1.body.isDocument = false)
    ∧ ((handleJsonList (.decodeError e) pub tgt m).1.status = 500
      ∧ (handleJsonList (.decodeError e) pub tgt m).2.errorCount = m.errorCount + 1
      ∧ (handleJsonList (.decodeError e) pub tgt m).1.body.isDocument = false) :=
  ⟨⟨rfl, rfl, rfl⟩, ⟨rfl, rfl, rfl⟩, ⟨rfl, rfl, rfl⟩, ⟨rfl, rfl, rfl⟩⟩

/-- C6: the router selects exactly one handler per request (it is a function)
following the source's dispatch order with first match winning: `GET /health`
→ health, `GET /metrics` → metrics, `GET /json/version[/]` → version handler,
`GET /json`, `/json/`, `/json/list` → list handler; a request that matches
none of the four GET rules goes to the transparent forwarder, through the
WebSocket arm when the `Upgrade`/`Connection` headers match case-insensitively
and through the default arm otherwise; and no method other than GET is
special-cased, so any non-GET request reaches the forwarder. -/
theorem route_dispatch_order (r : Request) :
    (r.method = "GET".data ∧ r.path = "/health".data → route r = .health)
    ∧ (r.method = "GET".data ∧ r.path = "/metrics".data → route r = .metrics)
    ∧ (r.method = "GET".data ∧
        (r.path = "/json/version".data ∨ r.path = "/json/version/".data) →
      route r = .version)
    ∧ (r.method = "GET".data ∧
        (r.path = "/json".data ∨ r.path = "/json/".data ∨ r.path = "/json/list".data) →
      route r = .list)
    ∧ (¬ (r.method = "GET".data ∧
        r.path ∈ ["/health".data, "/metrics".data, "/json/version".data,
          "/json/version/".data, "/json".data, "/json/".data, "/json/list".data]) →
      (isWebSocketUpgrade r = true → route r = .wsForward)
      ∧ (isWebSocketUpgrade r = false → route r = .forward))
    ∧ (r.method ≠ "GET".data → (route r).isForwarder = true) := by
  obtain ⟨method, path, host, upg, conn⟩ := r
  refine ⟨?_, ?_, ?_, ?_, ?_, ?_⟩
  · rintro ⟨hm, hp⟩
    subst hm hp
    rfl
  · rintro ⟨hm, hp⟩
    subst hm hp
    rfl
  · rintro ⟨hm, hp | hp⟩ <;> (subst hm hp; rfl)
  · rintro ⟨hm, hp | hp | hp⟩ <;> (subst hm hp; rfl)
  · intro hno
    have h1 : ¬ (method = "GET".data ∧ path = "/health".data) :=
      fun hc => hno ⟨hc.1, by rw [hc.2]; simp⟩
    have h2 : ¬ (method = "GET".data ∧ path = "/metrics".data) :=
      fun hc => hno ⟨hc.1, by rw [hc.2]; simp⟩
    have h3 : ¬ (method = "GET".data ∧
        (path = "/json/version".data ∨ path = "/json/version/".data)) := by
      rintro ⟨hm, hp | hp⟩ <;> exact hno ⟨hm, by rw [hp]; simp⟩
    have h4 : ¬ (method = "GET".data ∧
        (path = "/json".data ∨ path = "/json/".data ∨ path = "/json/list".data)) := by
      rintro ⟨hm, hp | hp | hp⟩ <;> exact hno ⟨hm, by rw [hp]; simp⟩
    unfold route
    rw [if_neg h1, if_neg h2, if_neg h3, if_neg h4]
    constructor
    · intro hw
      simp [hw]
    · intro hw
      simp [hw]
  · intro hm
    have h1 : ∀ p : Prop, ¬ (method = "GET".data ∧ p) := fun _ hc => hm hc.1
    unfold route
    rw [if_neg (h1 _), if_neg (h1 _), if_neg (h1 _), if_neg (h1 _)]
    by_cases hw : isWebSocketUpgrade ⟨method, path, host, upg, conn⟩ = true
    · simp [hw, Handler.isForwarder]
    · simp [hw, Handler.isForwarder]

/-- C6 (witness): `GET /health` routes to the health handler, and a POST to a
discovery path with WebSocket upgrade headers still reaches the forwarder. -/
theorem route_dispatch_order_witness :
    route ⟨"GET".data, "/health".data, "h.example".data, [], []⟩ = .health
    ∧ (route ⟨"POST".data, "/json/version".data, "h.example".data,
        "WebSocket".data, "keep-alive, Upgrade".data⟩).isForwarder = true :=
  ⟨(route_dispatch_order ⟨"GET".data, "/health".data, "h.example".data, [], []⟩).1
      ⟨rfl, rfl⟩,
    (route_dispatch_order ⟨"POST".data, "/json/version".data, "h.example".data,
        "WebSocket".data, "keep-alive, Upgrade".data⟩).2.2.2.2.2 (by decide)⟩

/-- C7 (counterexample): a transport-level failure on the forwarder path does
not increment the error counter.  A POST request (routed to the transparent
forwarder) whose upstream round trip fails leaves `errorCount` at its old
value 7 — the claim would require 8 — because the repository never wires the
reverse proxy's error path to the counter. -/
theorem forwarder_error_counter_cex :
    serveHTTP "localhost:9222".data ⟨"POST".data, "/x".data, "h.example".data, [], []⟩
        ⟨.ok [], .ok [], none, .transportError⟩ ⟨5, 7⟩
      = (⟨502, .errText "proxy error".data⟩, ⟨6, 7⟩)
    ∧ (7 : Nat) ≠ 7 + 1 := by
  constructor
  · decide
  · decide

/-- C7 (amended): every call handled by the transparent forwarder increments
the request counter by exactly one, and the error counter is left unchanged —
transport-level forwarding failures are surfaced as a 502 response but are
not counted (only the discovery handlers increment `errorCount`). -/
theorem forwarder_metrics_amended (tgt : List Char) (r : Request) (up : Upstream)
    (m : Metrics) (h : (route r).isForwarder = true) :
    (serveHTTP tgt r up m).1 = forwardResponse up.forwardResult
    ∧ (serveHTTP tgt r up m).2 = ⟨m.requestCount + 1, m.errorCount⟩ := by
  unfold serveHTTP
  cases hr : route r with
  | health => rw [hr] at h; simp [Handler.isForwarder] at h
  | metrics => rw [hr] at h; simp [Handler.isForwarder] at h
  | version => rw [hr] at h; simp [Handler.isForwarder] at h
  | list => rw [hr] at h; simp [Handler.isForwarder] at h
  | wsForward => exact ⟨rfl, rfl⟩
  | forward => exact ⟨rfl, rfl⟩

/-- C7 (witness): the amended statement at a concrete forwarded request. -/
theorem forwarder_metrics_amended_witness :
    (serveHTTP "localhost:9222".data
        ⟨"POST".data, "/submit".data, "h.example".data, [], []⟩
        ⟨.ok [], .ok [], none, .ok 200⟩ ⟨2, 3⟩).1 = forwardResponse (.ok 200)
    ∧ (serveHTTP "localhost:9222".data
        ⟨"POST".data, "/submit".data, "h.example".data, [], []⟩
        ⟨.ok [], .ok [], none, .ok 200⟩ ⟨2, 3⟩).2 = ⟨3, 3⟩ :=
  forwarder_metrics_amended "localhost:9222".data
    ⟨"POST".data, "/submit".data, "h.example".data, [], []⟩
    ⟨.ok [], .ok [], none, .ok 200⟩ ⟨2, 3⟩ (by decide)

/-- C10: `ServeHTTP` increments the request counter by exactly one for every
incoming request, whatever handler it dispatches to and however the handler
ends; and because the increment happens before dispatch, the metrics response
reports a `requests_total` that already counts the `/metrics` request that
produced it. -/
theorem requestCount_incremented_every_request (tgt : List Char) (r : Request)
    (up : Upstream) (m : Metrics) :
    ((serveHTTP tgt r up m).2.requestCount = m.requestCount + 1)
    ∧ (∀ h : List Char,
      (serveHTTP tgt ⟨"GET".data, "/metrics".data, h, [], []⟩ up m).1.body
        = .jsonMetrics (m.requestCount + 1) m.errorCount tgt) := by
  constructor
  · unfold serveHTTP
    cases hr : route r with
    | health => exact handleHealth_requestCount tgt up _
    | metrics => rfl
    | version => exact handleJsonVersion_requestCount up.versionFetch r.host tgt _
    | list => exact handleJsonList_requestCount up.listFetch r.host tgt _
    | wsForward => rfl
    | forward => rfl
  · intro h
    rfl

end ChromeProxy
